import Mathlib

/-!
Verification of the data-observability pipeline in
`src/dags/observability_dag.py`.

The Python module computes three data-quality metrics from a snapshot of
sales records, formats them in Prometheus exposition format, and
(simulatedly) pushes them to a Push Gateway.  We embed the computation
shallowly: timestamps are integers counting seconds, `amount` is an
optional rational, Python floats become rationals extended with an
explicit positive-infinity constructor, and the Python `round(x, 2)`
becomes round-half-to-even at two decimal places on rationals.
-/

/-- One row of the simulated `sales_data` table: `id` (unique identifier),
`amount` (nullable sale amount), `created_at` (creation timestamp, in
seconds). -/
structure Record where
  id : ℕ
  amount : Option ℚ
  created_at : ℤ
deriving DecidableEq, Repr

/-- A metric value: a finite number, or positive infinity
(the Python `float("inf")`, used for freshness on an empty snapshot). -/
inductive MetricValue where
  | finite : ℚ → MetricValue
  | inf : MetricValue
deriving DecidableEq, Repr

/-- Round a rational to the nearest integer, ties to even — the rounding
mode of the Python built-in `round`. -/
def roundHalfEven (x : ℚ) : ℤ :=
  let f : ℤ := ⌊x⌋
  let frac : ℚ := x - (f : ℚ)
  if frac < 1/2 then f
  else if (1 : ℚ)/2 < frac then f + 1
  else if f % 2 = 0 then f else f + 1

/-- the Python `round(x, 2)` on a finite value: round half to even at two
decimal places. -/
def round2 (q : ℚ) : ℚ := (roundHalfEven (q * 100) : ℚ) / 100

/-- the Python `round(x, 2)` on a possibly-infinite float:
`round(float("inf"), 2)` is `inf`. -/
def roundMV : MetricValue → MetricValue
  | .inf => .inf
  | .finite q => .finite (round2 q)

/-- Metric 1 of `run_observability_checks` (before the `round` applied at
dict construction): hours since the newest record, `(now -
newest_record_time).total_seconds() / 3600`; `float("inf")` when the
frame is empty. -/
def freshnessMetric (df : List Record) (now : ℤ) : MetricValue :=
  match df with
  | [] => .inf
  | r :: rs =>
      let newest_record_time : ℤ :=
        rs.foldl (fun a x => max a x.created_at) r.created_at
      .finite (((now - newest_record_time : ℤ) : ℚ) / 3600)

/-- Metric 2 of `run_observability_checks`: `float(len(df))`. -/
def volumeMetric (df : List Record) : MetricValue :=
  .finite ((df.length : ℕ) : ℚ)

/-- Metric 3 of `run_observability_checks` (before rounding):
`(df["amount"].isna().sum() / len(df)) * 100`, or `0.0` for an empty
frame. -/
def nullPctMetric (df : List Record) : MetricValue :=
  match df with
  | [] => .finite 0
  | _ :: _ =>
      let null_count : ℕ := (df.filter (fun r => r.amount.isNone)).length
      .finite (((null_count : ℚ) / (df.length : ℚ)) * 100)

/-- The metrics dictionary built by `run_observability_checks`, embedded
as an association list in dict insertion order.  The snapshot `df`
and clock reading `now` are the two inputs the Python function obtains
from `get_simulated_sales_data()` and `datetime.now()`. -/
def run_observability_checks (df : List Record) (now : ℤ) :
    List (String × MetricValue) :=
  [("data_freshness_hours", roundMV (freshnessMetric df now)),
   ("data_volume_rows", volumeMetric df),
   ("data_null_percentage", roundMV (nullPctMetric df))]

/-- Decimal rendering of a finite metric value, modelling the Python
f-string `f"{value}"` (i.e. `str` of a float) on the values this
pipeline produces: floats that are whole multiples of `1/100` (counts,
and quantities rounded to two decimal places).  CPython prints the
shortest decimal form with at least one fractional digit: `100.0`,
`40.0`, `0.05`, `33.33`, `-2.0`. -/
def renderRat (q : ℚ) : String :=
  let sign : String := if q < 0 then "-" else ""
  let a : ℚ := |q|
  let ip : ℕ := (⌊a⌋).toNat
  let c : ℕ := (⌊(a - (⌊a⌋ : ℚ)) * 100⌋).toNat
  if c = 0 then sign ++ toString ip ++ ".0"
  else if c % 10 = 0 then sign ++ toString ip ++ "." ++ toString (c / 10)
  else if c < 10 then sign ++ toString ip ++ ".0" ++ toString c
  else sign ++ toString ip ++ "." ++ toString c

/-- Rendering of a metric value as interpolated into the exposition
line: CPython renders `float("inf")` as the literal token `inf`. -/
def renderValue : MetricValue → String
  | .inf => "inf"
  | .finite q => renderRat q

/-- The Python `"\n".join(lines)`: concatenate with `sep` between
consecutive elements. -/
def joinWith (sep : String) : List String → String
  | [] => ""
  | [s] => s
  | s :: ss@(_ :: _) => s ++ sep ++ joinWith sep ss

/-- `format_metrics_for_prometheus`: one `"<name> <value>"` line per
dict entry, in dict iteration (= insertion) order, joined with
newlines. -/
def format_metrics_for_prometheus (metrics : List (String × MetricValue)) :
    String :=
  joinWith "\n" (metrics.map (fun p => p.1 ++ " " ++ renderValue p.2))

/-- Default value of the `pushgateway_url` parameter of
`push_metrics_to_prometheus`. -/
def default_pushgateway_url : String := "http://localhost:9091"

/-- Default value of the `job_name` parameter of
`push_metrics_to_prometheus`. -/
def default_job_name : String := "data_observability"

/-- The target URL constructed by `push_metrics_to_prometheus`:
`f"{pushgateway_url}/metrics/job/{job_name}"`. -/
def pushTargetUrl (pushgateway_url job_name : String) : String :=
  pushgateway_url ++ "/metrics/job/" ++ job_name

/-- `push_metrics_to_prometheus`: the push is simulated — the function
builds the target URL, prints, performs no network request (the HTTP
POST is commented out in the source), and returns `true`
unconditionally.  The `metrics` payload and both parameters are
otherwise unused. -/
def push_metrics_to_prometheus
    (metrics pushgateway_url job_name : String) : Bool :=
  let _url := pushTargetUrl pushgateway_url job_name
  let _payload := metrics
  true

/-- What `run_observability_task` produces when it completes: the
metrics dict and the formatted payload (both stored to XCom for the
caller), and the boolean returned by the push. -/
structure RunReport where
  metrics : List (String × MetricValue)
  payload : String
  success : Bool
deriving Repr

/-- `run_observability_task`, the coordinator.  `provider` models
obtaining the snapshot (`get_simulated_sales_data` inside
`run_observability_checks`) together with Python exception propagation:
if obtaining the snapshot raises, the task raises before any metric is
computed and nothing is stored.  `push` models the injected transport
outcome of `push_metrics_to_prometheus` (in the source a call with the
default endpoint and job, which returns `true`); the task stores the
metrics and payload to XCom after the push regardless of the returned
boolean. -/
def run_observability_task (provider : Except Unit (List Record))
    (now : ℤ) (push : String → Bool) : Except Unit RunReport :=
  match provider with
  | .error e => .error e
  | .ok df =>
      let metrics := run_observability_checks df now
      let prometheus_metrics := format_metrics_for_prometheus metrics
      let success := push prometheus_metrics
      .ok ⟨metrics, prometheus_metrics, success⟩

/-! Helper lemmas about the rounding mode and the running maximum. -/

theorem roundHalfEven_nonneg {x : ℚ} (hx : 0 ≤ x) : 0 ≤ roundHalfEven x := by
  have hf : (0 : ℤ) ≤ ⌊x⌋ := Int.floor_nonneg.mpr hx
  simp only [roundHalfEven]
  split_ifs <;> omega

theorem roundHalfEven_le_int {x : ℚ} {N : ℤ} (hx : x ≤ (N : ℚ)) :
    roundHalfEven x ≤ N := by
  have hfN : ⌊x⌋ ≤ N := by
    have h := Int.floor_mono hx
    simpa using h
  have hfx : (⌊x⌋ : ℚ) ≤ x := Int.floor_le x
  simp only [roundHalfEven]
  split_ifs with h1 h2 h3
  · exact hfN
  · have hlt : (⌊x⌋ : ℚ) < (N : ℚ) := by linarith
    have : ⌊x⌋ < N := by exact_mod_cast hlt
    omega
  · exact hfN
  · have heq : x - (⌊x⌋ : ℚ) = 1/2 := le_antisymm (not_lt.mp h2) (not_lt.mp h1)
    have hlt : (⌊x⌋ : ℚ) < (N : ℚ) := by linarith
    have : ⌊x⌋ < N := by exact_mod_cast hlt
    omega

theorem round2_nonneg {q : ℚ} (h : 0 ≤ q) : 0 ≤ round2 q := by
  have h1 : (0 : ℤ) ≤ roundHalfEven (q * 100) :=
    roundHalfEven_nonneg (by positivity)
  have h2 : (0 : ℚ) ≤ (roundHalfEven (q * 100) : ℚ) := by exact_mod_cast h1
  unfold round2
  positivity

theorem round2_le_100 {q : ℚ} (h : q ≤ 100) : round2 q ≤ 100 := by
  have h1 : q * 100 ≤ ((10000 : ℤ) : ℚ) := by push_cast; linarith
  have h2 : roundHalfEven (q * 100) ≤ 10000 := roundHalfEven_le_int h1
  have h3 : (roundHalfEven (q * 100) : ℚ) ≤ 10000 := by exact_mod_cast h2
  unfold round2
  linarith

theorem foldl_max_created_at_le (l : List Record) (a now : ℤ) (ha : a ≤ now)
    (hl : ∀ r ∈ l, r.created_at ≤ now) :
    l.foldl (fun b x => max b x.created_at) a ≤ now := by
  induction l generalizing a with
  | nil => exact ha
  | cons r rs ih =>
      exact ih (max a r.created_at)
        (max_le ha (hl r (by simp)))
        (fun x hx => hl x (by simp [hx]))

/-- C1: for every snapshot and clock reading, `run_observability_checks`
returns a metrics dict whose keys are exactly `data_freshness_hours`,
`data_volume_rows`, `data_null_percentage`, in that order — never more,
never fewer, never partial. -/
theorem compute_returns_exactly_three_metrics (df : List Record) (now : ℤ) :
    (run_observability_checks df now).map Prod.fst =
      ["data_freshness_hours", "data_volume_rows", "data_null_percentage"] :=
  rfl

/-- C3: on the empty snapshot the computation succeeds and yields
freshness `inf`, volume `0`, and null percentage `0`. -/
theorem empty_snapshot_metrics (now : ℤ) :
    run_observability_checks [] now =
      [("data_freshness_hours", MetricValue.inf),
       ("data_volume_rows", MetricValue.finite 0),
       ("data_null_percentage", MetricValue.finite 0)] := by
  norm_num [run_observability_checks, freshnessMetric, volumeMetric,
    nullPctMetric, roundMV, round2, roundHalfEven]

/-- C5: for every snapshot (the empty one included), the
`data_volume_rows` entry is the exact record count, cast to a numeric
value without any rounding. -/
theorem volume_is_exact_row_count (df : List Record) (now : ℤ) :
    List.lookup "data_volume_rows" (run_observability_checks df now) =
      some (MetricValue.finite ((df.length : ℕ) : ℚ)) := by
  simp [run_observability_checks, volumeMetric, List.lookup]

/-- C7: the computation and the formatter are pure functions of the
snapshot and the clock reading: two runs on identical inputs produce an
identical formatted payload. -/
theorem pipeline_deterministic (df₁ df₂ : List Record) (now₁ now₂ : ℤ)
    (hdf : df₁ = df₂) (hnow : now₁ = now₂) :
    format_metrics_for_prometheus (run_observability_checks df₁ now₁) =
      format_metrics_for_prometheus (run_observability_checks df₂ now₂) := by
  subst hdf; subst hnow; rfl

/-- Witness for C7 at a concrete input. -/
theorem pipeline_deterministic_witness :
    format_metrics_for_prometheus (run_observability_checks [⟨1, none, 0⟩] 5) =
      format_metrics_for_prometheus (run_observability_checks [⟨1, none, 0⟩] 5) :=
  pipeline_deterministic [⟨1, none, 0⟩] [⟨1, none, 0⟩] 5 5 rfl rfl

/-- C8 counterexample: `push_metrics_to_prometheus` reports success
(`true`) even for an endpoint that cannot be reached — the push is
simulated and no transport response is ever consulted, so the claimed
`Failed`-with-reason outcome is impossible. -/
theorem push_reports_success_for_unreachable_endpoint :
    push_metrics_to_prometheus "data_freshness_hours 0.05"
      "http://unreachable.invalid:9091" "data_observability" = true := rfl

/-- C8 amended: `push_metrics_to_prometheus` performs no send attempt
(the HTTP POST is commented out): for every payload, endpoint, and job
name it returns `true`, never raises, and never reports a failure or a
reason. -/
theorem push_always_reports_success
    (metrics pushgateway_url job_name : String) :
    push_metrics_to_prometheus metrics pushgateway_url job_name = true := rfl

/-- C9: if obtaining the snapshot fails, the coordinator propagates the
failure and produces no metrics dict or payload; if the snapshot is
obtained, the report carries the computed metrics and formatted payload
whatever boolean the push returns, so a failed publish loses no work. -/
theorem coordinator_error_and_success_paths (now : ℤ)
    (push : String → Bool) :
    run_observability_task (Except.error ()) now push = Except.error () ∧
    ∀ df : List Record, ∃ report : RunReport,
      run_observability_task (Except.ok df) now push = Except.ok report ∧
      report.metrics = run_observability_checks df now ∧
      report.payload =
        format_metrics_for_prometheus (run_observability_checks df now) :=
  ⟨rfl, fun df =>
    ⟨⟨run_observability_checks df now,
      format_metrics_for_prometheus (run_observability_checks df now),
      push (format_metrics_for_prometheus (run_observability_checks df now))⟩,
     rfl, rfl, rfl⟩⟩

/-- C10: with the default parameter values of
`push_metrics_to_prometheus`, the constructed target URL is
`http://localhost:9091/metrics/job/data_observability`. -/
theorem default_push_target_url :
    default_pushgateway_url = "http://localhost:9091" ∧
    default_job_name = "data_observability" ∧
    pushTargetUrl default_pushgateway_url default_job_name =
      "http://localhost:9091/metrics/job/data_observability" :=
  ⟨rfl, rfl, rfl⟩

/-- C2 counterexample: a record timestamped two hours after `now` makes
`data_freshness_hours` equal to `-2`, which is negative — the code
applies no clamp at `0` under clock skew. -/
theorem freshness_negative_under_clock_skew :
    run_observability_checks [⟨1, none, 7200⟩] 0 =
      [("data_freshness_hours", MetricValue.finite (-2)),
       ("data_volume_rows", MetricValue.finite 1),
       ("data_null_percentage", MetricValue.finite 100)] ∧
    (-2 : ℚ) < 0 := by
  constructor
  · norm_num [run_observability_checks, freshnessMetric, volumeMetric,
      nullPctMetric, roundMV, round2, roundHalfEven]
  · norm_num

/-- C2 amended: when every record is timestamped at or before `now`,
`data_freshness_hours` is a finite non-negative value; a record
timestamped after `now` is not clamped and can drive the metric
negative. -/
theorem freshness_nonneg_without_clock_skew (df : List Record) (now : ℤ)
    (hne : df ≠ []) (hpast : ∀ r ∈ df, r.created_at ≤ now) :
    ∃ q : ℚ,
      List.lookup "data_freshness_hours" (run_observability_checks df now) =
        some (MetricValue.finite q) ∧ 0 ≤ q := by
  match df, hne with
  | r :: rs, _ =>
    refine ⟨round2 (((now -
        rs.foldl (fun a x => max a x.created_at) r.created_at : ℤ) : ℚ) / 3600),
      ?_, ?_⟩
    · simp [run_observability_checks, freshnessMetric, roundMV, List.lookup]
    · have hlatest : rs.foldl (fun a x => max a x.created_at) r.created_at ≤ now :=
        foldl_max_created_at_le rs r.created_at now (hpast r (by simp))
          (fun x hx => hpast x (by simp [hx]))
      apply round2_nonneg
      apply div_nonneg _ (by norm_num)
      have h0 : (0 : ℤ) ≤ now - rs.foldl (fun a x => max a x.created_at) r.created_at := by
        omega
      exact_mod_cast h0

/-- Witness for C2 amended at a concrete input. -/
theorem freshness_nonneg_without_clock_skew_witness :
    ∃ q : ℚ,
      List.lookup "data_freshness_hours"
          (run_observability_checks [⟨1, some 5, 0⟩] 3600) =
        some (MetricValue.finite q) ∧ 0 ≤ q :=
  freshness_nonneg_without_clock_skew [⟨1, some 5, 0⟩] 3600
    (by simp) (by simp)

/-- C4: on a non-empty snapshot, the `data_null_percentage` entry equals
`100 * (records with absent amount / total records)` rounded to two
decimal places, and lies between `0` and `100`. -/
theorem null_percentage_formula_and_bounds (df : List Record) (now : ℤ)
    (hne : df ≠ []) :
    ∃ q : ℚ,
      List.lookup "data_null_percentage" (run_observability_checks df now) =
        some (MetricValue.finite q) ∧
      q = round2 (100 *
        (((df.filter (fun r => r.amount.isNone)).length : ℚ) /
          (df.length : ℚ))) ∧
      0 ≤ q ∧ q ≤ 100 := by
  have htpos : (0 : ℚ) < (df.length : ℚ) := by
    exact_mod_cast List.length_pos.mpr hne
  have hcle : ((df.filter (fun r => r.amount.isNone)).length : ℚ) ≤
      (df.length : ℚ) := by
    exact_mod_cast List.length_filter_le _ df
  have hcnn : (0 : ℚ) ≤ ((df.filter (fun r => r.amount.isNone)).length : ℚ) := by
    positivity
  have hratio0 : (0 : ℚ) ≤
      ((df.filter (fun r => r.amount.isNone)).length : ℚ) / (df.length : ℚ) :=
    div_nonneg hcnn (le_of_lt htpos)
  have hratio1 :
      ((df.filter (fun r => r.amount.isNone)).length : ℚ) / (df.length : ℚ) ≤ 1 :=
    (div_le_one htpos).mpr hcle
  match df, hne, htpos, hcle, hcnn, hratio0, hratio1 with
  | r :: rs, _, htpos, hcle, hcnn, hratio0, hratio1 =>
    refine ⟨round2 (((((r :: rs).filter (fun x => x.amount.isNone)).length : ℚ) /
        (((r :: rs).length : ℕ) : ℚ)) * 100), ?_, ?_, ?_, ?_⟩
    · simp [run_observability_checks, nullPctMetric, roundMV, List.lookup]
    · rw [mul_comm]
    · exact round2_nonneg (by positivity)
    · exact round2_le_100 (by nlinarith)

/-- Witness for C4 at a concrete input. -/
theorem null_percentage_formula_and_bounds_witness :
    ∃ q : ℚ,
      List.lookup "data_null_percentage"
          (run_observability_checks [⟨1, none, 0⟩, ⟨2, some 3, 0⟩] 0) =
        some (MetricValue.finite q) ∧
      q = round2 (100 *
        ((([⟨1, none, 0⟩, ⟨2, some 3, 0⟩].filter
            (fun r : Record => r.amount.isNone)).length : ℚ) /
          (([⟨1, none, 0⟩, (⟨2, some 3, 0⟩ : Record)].length : ℚ)))) ∧
      0 ≤ q ∧ q ≤ 100 :=
  null_percentage_formula_and_bounds [⟨1, none, 0⟩, ⟨2, some 3, 0⟩] 0
    (by simp)

/-- C6: the formatter emits exactly one `"<name> <value>"` line per
metric, newline-joined, in the fixed order freshness, volume,
null-percentage, and renders positive infinity as the literal token
`inf`. -/
theorem formatter_layout (df : List Record) (now : ℤ) :
    format_metrics_for_prometheus (run_observability_checks df now) =
      "data_freshness_hours" ++ " " ++
        renderValue (roundMV (freshnessMetric df now)) ++ "\n" ++
        "data_volume_rows" ++ " " ++ renderValue (volumeMetric df) ++ "\n" ++
        "data_null_percentage" ++ " " ++
        renderValue (roundMV (nullPctMetric df)) ∧
    renderValue MetricValue.inf = "inf" := by
  constructor
  · simp only [format_metrics_for_prometheus, run_observability_checks,
      List.map, joinWith]
    simp only [String.append_assoc]
  · rfl

